import Mathlib

/-!
Shallow embedding of the totp-gateway repository.

Bot side (src/bot/main.py): the message handler is modelled as a function
from a per-invocation environment (the results the Zulip API would return
during this invocation) and an inbound event to an `Except`-value carrying
the ordered list of outbound side effects (direct messages, stream posts,
gateway calls).  A `.error` value models a Python exception escaping the
handler.

Gateway side (src/gateway/app.py): each FastAPI route is a function of the
process environment (`String -> Option String`, modelling `os.getenv`),
because the source reads `LABELS`, `TOTP_PERIOD`, `TOTP_DIGITS` and
`API_KEY` inside the request handlers.  The TOTP arithmetic (pyotp) and the
clock are injected as parameters, as the spec treats them as external
primitives.

Strings are treated at the ASCII level: Python's Unicode-aware `\w`, `\s`,
`str.lower` and `str.strip` are modelled by their ASCII restrictions, which
coincide with Python on all inputs appearing in the claims.
-/

deriving instance DecidableEq for Except

namespace TG

/-- ASCII model of the regex class `\s` (Python whitespace). -/
def isSpaceCh (c : Char) : Bool :=
  c = ' ' || c = '\t' || c = '\n' || c = '\r' || c = '\x0b' || c = '\x0c'

/-- ASCII lower-casing of one character, modelling `str.lower`. -/
def lowerChar (c : Char) : Char :=
  if 'A' ≤ c && c ≤ 'Z' then Char.ofNat (c.toNat + 32) else c

/-- Model of `str.lower` on the character list of a string. -/
def lowerList (cs : List Char) : List Char := cs.map lowerChar

/-- Model of `str.lower` at the string level. -/
def pyLower (s : String) : String := String.mk (lowerList s.data)

/-- Model of `str.strip()`: remove leading and trailing whitespace. -/
def pyStrip (s : String) : String :=
  String.mk ((((s.data.dropWhile isSpaceCh).reverse).dropWhile isSpaceCh).reverse)

/-- Model of Python slicing `s[n:]`. -/
def pyDrop (s : String) (n : Nat) : String := String.mk (s.data.drop n)

/-- Model of Python slicing `s[:n]`. -/
def pyTake (s : String) (n : Nat) : String := String.mk (s.data.take n)

/-- Model of `str.split(sep)` for a one-character separator: split on every
occurrence, keeping empty pieces (Python semantics). -/
def splitOnChar (sep : Char) (acc : List Char) : List Char → List (List Char)
  | [] => [acc.reverse]
  | c :: cs =>
    if c = sep then acc.reverse :: splitOnChar sep [] cs
    else splitOnChar sep (c :: acc) cs

/-- Accumulate a decimal digit run; `none` on any non-digit. -/
def digitsVal (acc : Nat) : List Char → Option Nat
  | [] => some acc
  | c :: cs =>
    if '0' ≤ c && c ≤ '9' then digitsVal (acc * 10 + (c.toNat - 48)) cs else none

/-- Model of Python `int(s)` on the decimal forms the gateway can see:
optional surrounding whitespace, optional sign, then a non-empty digit
run; `none` models the `ValueError` anything else raises. -/
def pyIntParse (s : String) : Option Int :=
  match (pyStrip s).data with
  | [] => none
  | '-' :: rest =>
    match rest with
    | [] => none
    | _ => (digitsVal 0 rest).map (fun n => -(n : Int))
  | '+' :: rest =>
    match rest with
    | [] => none
    | _ => (digitsVal 0 rest).map (fun n => (n : Int))
  | cs => (digitsVal 0 cs).map (fun n => (n : Int))

/-- ASCII model of the regex class `[a-z0-9_]` used in `CMD_MFA`
(the handler lower-cases the text before searching, so the `IGNORECASE`
flag adds nothing on the searched text). -/
def isLabelChar (c : Char) : Bool :=
  ('a' ≤ c && c ≤ 'z') || ('0' ≤ c && c ≤ '9') || c = '_'

/-- ASCII model of the regex class `\w` (word character). -/
def isWordChar (c : Char) : Bool :=
  ('a' ≤ c && c ≤ 'z') || ('A' ≤ c && c ≤ 'Z') || ('0' ≤ c && c ≤ '9') || c = '_'

/-- Drop an exact literal from the front of a character list
(`none` when the literal is not there). -/
def dropLit : List Char → List Char → Option (List Char)
  | [], cs => some cs
  | _ :: _, [] => none
  | l :: ls, c :: cs => if c = l then dropLit ls cs else none

/-- Drop a literal from the front, comparing case-insensitively
(the literal is given in lower case).  Models `IGNORECASE` matching. -/
def dropLitCI : List Char → List Char → Option (List Char)
  | [], cs => some cs
  | _ :: _, [] => none
  | l :: ls, c :: cs => if lowerChar c = l then dropLitCI ls cs else none

/-- Does `pat` occur at the front of the list? -/
def listStartsWith (pat : List Char) (cs : List Char) : Bool :=
  (dropLit pat cs).isSome

/-- Model of `str.startswith(pre)`. -/
def pyStartsWith (s pre : String) : Bool := listStartsWith pre.data s.data

/-- Python `pat in text` substring test. -/
def containsSub (pat : List Char) : List Char → Bool
  | [] => listStartsWith pat []
  | c :: cs => listStartsWith pat (c :: cs) || containsSub pat cs

/-- The token `@**`, whose presence marks a mention (line 165 of
src/bot/main.py). -/
def mentionPat : List Char := ['@', '*', '*']

/-- A help token matched here, case-insensitively, followed by `\s` or the
end of the text (the `(\s|$)` part of `CMD_HELP`). -/
def tokThenSpaceOrEnd (tok : List Char) (cs : List Char) : Bool :=
  match dropLitCI tok cs with
  | none => false
  | some [] => true
  | some (d :: _) => isSpaceCh d

/-- Scan for `CMD_HELP`; `prev` records whether the current position is
preceded by the start of the text or a whitespace character (the `(^|\s)`
part of the pattern). -/
def helpScan (prev : Bool) : List Char → Bool
  | [] => false
  | c :: cs =>
    (prev && (tokThenSpaceOrEnd ['!', 'm', 'f', 'a'] (c :: cs)
      || tokThenSpaceOrEnd ['!', 'm', 'f', 'a', '-', 'h', 'e', 'l', 'p'] (c :: cs)))
    || helpScan (isSpaceCh c) cs

/-- Embedding of `CMD_HELP.search(text)` (line 58 of src/bot/main.py):
`(^|\s)!mfa(\s|$)|(^|\s)!mfa-help(\s|$)`, IGNORECASE. -/
def helpMatch (cs : List Char) : Bool := helpScan true cs

/-- The literal `!mfa-` opening `CMD_MFA`. -/
def mfaLit : List Char := ['!', 'm', 'f', 'a', '-']

/-- The negative lookahead `(?!help\b)` of `CMD_MFA`: true when `help`
followed by a word boundary stands here (so the pattern must fail). -/
def helpLookahead : List Char → Bool
  | 'h' :: 'e' :: 'l' :: 'p' :: rest =>
    match rest with
    | [] => true
    | d :: _ => !isWordChar d
  | _ => false

/-- Attempt to match `CMD_MFA` anchored at the current position:
`!mfa-(?!help\b)([a-z0-9_]+)-([a-z0-9_]+)\b` on lower-cased text.
Both groups exclude `-`, so the greedy split is the maximal label-character
runs on either side of the first following dash. -/
def matchMfaAt (cs : List Char) : Option (String × String) :=
  match dropLit mfaLit cs with
  | none => none
  | some rest =>
    if helpLookahead rest then none
    else
      match rest.dropWhile isLabelChar with
      | [] => none
      | d :: r2 =>
        if d = '-' then
          if (rest.takeWhile isLabelChar).isEmpty then none
          else if (r2.takeWhile isLabelChar).isEmpty then none
          else
            match r2.dropWhile isLabelChar with
            | [] =>
              some (String.mk (rest.takeWhile isLabelChar),
                String.mk (r2.takeWhile isLabelChar))
            | e :: _ =>
              if isWordChar e then none
              else
                some (String.mk (rest.takeWhile isLabelChar),
                  String.mk (r2.takeWhile isLabelChar))
        else none

/-- Embedding of `CMD_MFA.search` on lower-cased text: leftmost position
where the anchored pattern matches. -/
def mfaSearch : List Char → Option (String × String)
  | [] => none
  | c :: cs =>
    match matchMfaAt (c :: cs) with
    | some r => some r
    | none => mfaSearch cs

/-- The typed command produced from one message text (spec data model). -/
inductive Cmd where
  | help : Cmd
  | gen : String → String → Cmd
  | noCmd : Cmd
deriving DecidableEq

/-- The parsing pipeline of the handler (lines 155, 169, 174 of
src/bot/main.py): strip, help pattern on the stripped text, then
`CMD_MFA.search` on the lower-cased stripped text. -/
def parseCommand (text : String) : Cmd :=
  let t := pyStrip text
  if helpMatch t.data then Cmd.help
  else
    match mfaSearch (lowerList t.data) with
    | some (c, s) => Cmd.gen c s
    | none => Cmd.noCmd

/-- `SERVICE_DISPLAY.get(label_service, label_service)` (lines 44-51). -/
def serviceDisplay (s : String) : String :=
  if s = "gmail" then "Gmail"
  else if s = "aws" then "AWS"
  else if s = "slack" then "Slack"
  else if s = "microsoft" then "Microsoft"
  else if s = "github" then "GitHub"
  else if s = "demo" then "Demo"
  else s

/-- Python `email.split("@")[0]`: the part before the first `@`
(the whole string when there is no `@`). -/
def emailLocal (email : String) : String :=
  String.mk (email.data.takeWhile (fun c => c ≠ '@'))

/-- One entry of the TOTP JSON body returned by the gateway; each field
models `data.get(...)` with `none` for an absent key. -/
structure TotpData where
  code : Option String
  valid_for : Option Nat
  timestamp : Option String
deriving DecidableEq

/-- The outcome of the one `requests.get` call made by `fetch_totp`:
either the call raised (network failure), or an HTTP response arrived.
`errText` models the text of the exception `raise_for_status` raises for
this response, `body` the parsed JSON (`none` when `.json()` raises, with
`jsonErrText` that exception's text). -/
inductive GatewayResp where
  | exn : String → GatewayResp
  | resp : Nat → String → Option TotpData → String → GatewayResp
deriving DecidableEq

/-- Embedding of `fetch_totp` (lines 118-132 of src/bot/main.py):
404 is answered before `raise_for_status`; any exception (network,
`raise_for_status` on 4xx/5xx, malformed JSON) is caught and rendered as
`Gateway error: ...`. -/
def fetch_totp (label_client label_service requester_email : String)
    (g : GatewayResp) : Bool × String × Option TotpData :=
  match g with
  | GatewayResp.exn e => (false, "Gateway error: " ++ e, none)
  | GatewayResp.resp status errText body jsonErrText =>
    if status = 404 then (false, "Unknown label.", none)
    else if 400 ≤ status && status < 600 then (false, "Gateway error: " ++ errText, none)
    else
      match body with
      | none => (false, "Gateway error: " ++ jsonErrText, none)
      | some d => (true, "", some d)

/-- Metadata of one Zulip stream as returned by `get_streams`. -/
structure StreamMeta where
  name : String
  stream_id : Nat
deriving DecidableEq

/-- One entry of the realm user list as returned by `get_users`;
`full_name` is `""` when the member record has no truthy full name. -/
structure Member where
  email : String
  user_id : Nat
  full_name : String
deriving DecidableEq

/-- The results the Zulip API returns during one handler invocation.
`none` models a result field different from `"success"`. -/
structure ZulipEnv where
  get_streams : Option (List StreamMeta)
  get_subscribers : String → Option (List Nat)
  get_users : Option (List Member)
  send_result : Nat → String → String → Bool
  gateway : GatewayResp

/-- One observable outbound action of the handler, in temporal order. -/
inductive Effect where
  | dm : String → String → Effect
  | streamPost : Nat → String → String → Effect
  | gatewayCall : String → String → String → Effect
deriving DecidableEq

/-- Is this effect a direct message (a reply to the requester)? -/
def isDm : Effect → Bool
  | Effect.dm _ _ => true
  | _ => false

/-- Is this effect a stream post (an audit write)? -/
def isStreamPost : Effect → Bool
  | Effect.streamPost _ _ _ => true
  | _ => false

/-- Is this effect a call to the code-generation gateway? -/
def isGatewayCall : Effect → Bool
  | Effect.gatewayCall _ _ _ => true
  | _ => false

/-- The bot configuration captured once at module load
(lines 37-41 of src/bot/main.py). -/
structure BotConfig where
  gateway_url : String
  api_key : String
  audit_topic : String
  fallback_stream : String

/-- Strip trailing `/` characters, modelling `str.rstrip("/")`. -/
def rstripSlash (s : String) : String :=
  String.mk ((s.data.reverse.dropWhile (fun c => c = '/')).reverse)

/-- Build the module-level configuration from the process environment
(lines 37-41 of src/bot/main.py); `os.getenv(k, d)` is `(g k).getD d`. -/
def botConfigOf (g : String → Option String) : BotConfig :=
  { gateway_url := rstripSlash ((g ("GATEWAY_URL")).getD ("http://localhost:8000"))
    api_key := pyStrip ((g ("API_KEY")).getD "")
    audit_topic :=
      (fun t => if t = "" then "channel events" else t)
        (pyStrip ((g ("AUDIT_TOPIC")).getD ("channel events")))
    fallback_stream :=
      (fun t => if t = "" then "general" else t)
        (pyStrip ((g ("FALLBACK_STREAM")).getD ("general"))) }

/-- `HELP_TEXT` (lines 134-143), with the configured audit topic and
fallback stream interpolated. -/
def helpText (cfg : BotConfig) : String :=
  "🔐 **TOTP Bot — Usage**\n\n"
  ++ "**Commands**\n"
  ++ "• `!mfa-<client>-<service>` — DM me or mention me in the right stream\n"
  ++ "• `!mfa-help` — show this help\n\n"
  ++ "**Access control**\n"
  ++ "• You must be a member of `#<client>` to request codes for that client.\n\n"
  ++ "**Audit**\n"
  ++ "• Logs to the client’s stream under topic **“" ++ cfg.audit_topic
  ++ "”**, fallback to `#" ++ cfg.fallback_stream ++ "`.\n"

/-- `list_streams` (lines 72-77): raises `RuntimeError` when `get_streams`
does not succeed; otherwise the stream list, later keyed by lower-cased
name. -/
def list_streams (env : ZulipEnv) : Except String (List StreamMeta) :=
  match env.get_streams with
  | none => Except.error ("RuntimeError: get_streams failed")
  | some l => Except.ok l

/-- Lookup in the dict `{s["name"].lower(): s}` built by `list_streams`;
later duplicates overwrite earlier ones, so the last match wins. -/
def streamLookup (l : List StreamMeta) (stream_name : String) : Option StreamMeta :=
  (l.filter (fun s => pyLower s.name == pyLower stream_name)).getLast?

/-- `get_user_id_and_name` (lines 79-86): the first member whose email
matches; on lookup failure or a miss, `(None, email.split("@")[0])`. -/
def get_user_id_and_name (env : ZulipEnv) (email : String) : Option Nat × String :=
  match env.get_users with
  | some members =>
    match members.find? (fun m => m.email == email) with
    | some m => (some m.user_id, if m.full_name = "" then emailLocal email else m.full_name)
    | none => (none, emailLocal email)
  | none => (none, emailLocal email)

/-- `in_client_stream` (lines 98-103): membership in the stream named
exactly `client_name`; any non-success subscriber lookup yields `false`
(the `stream_map` argument is accepted and unused, as in the source). -/
def in_client_stream (env : ZulipEnv) (client_name : String) (user_id : Nat)
    (stream_map : List StreamMeta) : Bool :=
  match env.get_subscribers client_name with
  | none => false
  | some subs => subs.contains user_id

/-- `send_stream_message` (lines 108-116): re-lists the streams (which can
raise), returns `false` for an unknown stream without posting, otherwise
posts and reports whether the post succeeded. -/
def send_stream_message (env : ZulipEnv) (stream_name topic content : String) :
    Except String (Bool × List Effect) :=
  Except.bind (list_streams env) (fun l =>
    match streamLookup l stream_name with
    | none => Except.ok (false, [])
    | some meta =>
      Except.ok (env.send_result meta.stream_id topic content,
        [Effect.streamPost meta.stream_id topic content]))

/-- The audit pattern repeated at lines 192-193, 201-202 and 219-220:
post to the primary stream under the audit topic; when that returns
`False`, post to the fallback stream under the same topic with
`" (logged here)"` appended. -/
def audit_log (cfg : BotConfig) (env : ZulipEnv) (primary line : String) :
    Except String (List Effect) :=
  Except.bind (send_stream_message env primary cfg.audit_topic line) (fun r1 =>
    if r1.1 then Except.ok r1.2
    else
      Except.bind
        (send_stream_message env cfg.fallback_stream cfg.audit_topic
          (line ++ " (logged here)")) (fun r2 =>
        Except.ok (r1.2 ++ r2.2)))

/-- The access-denied direct message (lines 183-189). -/
def deniedDm (label_client label_service : String) : String :=
  "❌ **Access Denied**\n\nYou must be in **#" ++ label_client
  ++ "** to request `" ++ label_service ++ "` codes.\nPlease contact an admin for access."

/-- The denial audit line (line 191). -/
def deniedLine (display_name label_service label_client : String) : String :=
  "❌ " ++ display_name ++ " requested " ++ serviceDisplay label_service
  ++ " MFA → Access denied (not in #" ++ label_client ++ ")"

/-- The upstream-failure audit line (line 200). -/
def failLine (display_name label_service err : String) : String :=
  "⚠️ " ++ display_name ++ " requested " ++ serviceDisplay label_service
  ++ " MFA → ❌ " ++ err

/-- The success audit line (line 218). -/
def successLine (display_name label_service : String) : String :=
  "🔐 " ++ display_name ++ " requested " ++ serviceDisplay label_service
  ++ " MFA → ✅ Code sent to DM"

/-- The success direct message (lines 206-214), with the body fields read
through `data.get` defaults. -/
def successDm (label_client label_service : String) (d : TotpData) : String :=
  "🔐 **" ++ serviceDisplay label_service ++ "** (" ++ label_client ++ "): `"
  ++ d.code.getD ("error") ++ "`\n⏰ Valid for " ++ toString (d.valid_for.getD 30)
  ++ " seconds\n🕒 Generated at " ++ pyTake (d.timestamp.getD "") 19

/-- The fetch-and-reply tail of the handler (lines 196-220). -/
def handleFetch (cfg : BotConfig) (env : ZulipEnv)
    (sender_email label_client label_service display_name : String) :
    Except String (List Effect) :=
  match fetch_totp label_client label_service sender_email env.gateway with
  | (ok, err, data) =>
    if ok then
      match data with
      | none => Except.error ("AttributeError: NoneType object has no attribute get")
      | some d =>
        Except.bind (audit_log cfg env label_client (successLine display_name label_service))
          (fun afx =>
            Except.ok (Effect.gatewayCall label_client label_service sender_email
              :: Effect.dm sender_email (successDm label_client label_service d) :: afx))
    else
      Except.bind (audit_log cfg env label_client (failLine display_name label_service err))
        (fun afx =>
          Except.ok (Effect.gatewayCall label_client label_service sender_email
            :: Effect.dm sender_email ("❌ " ++ err) :: afx))

/-- The condition at line 182, `user_id is None or not in_client_stream(...)`,
negated: true when the requester is resolved and a member of the client
channel. -/
def allowed_check (env : ZulipEnv) (label_client : String)
    (stream_map : List StreamMeta) : Option Nat → Bool
  | none => false
  | some uid => in_client_stream env label_client uid stream_map

/-- The generate-code tail of the handler (lines 179-220): list streams
(which can raise), resolve the requester, access-check, then deny or
fetch.  Effects are listed in the temporal order of the source. -/
def handleGenerate (cfg : BotConfig) (env : ZulipEnv)
    (sender_email label_client label_service : String) :
    Except String (List Effect) :=
  Except.bind (list_streams env) (fun stream_map =>
    match get_user_id_and_name env sender_email with
    | (uid?, display_name) =>
      if allowed_check env label_client stream_map uid? then
        handleFetch cfg env sender_email label_client label_service display_name
      else
        Except.bind
          (audit_log cfg env label_client (deniedLine display_name label_service label_client))
          (fun afx =>
            Except.ok (Effect.dm sender_email (deniedDm label_client label_service) :: afx)))

/-- One inbound message as delivered inside an event; each field models
`msg.get(...)` with `none`/defaults for absent keys. -/
structure MessageRec where
  content : Option String
  mtype : Option String
  sender_email : String
  sender_id : Option Nat
  sender_is_bot : Bool
deriving DecidableEq

/-- The record `event.get("message", {})` yields for a missing key. -/
def emptyMsg : MessageRec :=
  { content := none, mtype := none, sender_email := "", sender_id := none,
    sender_is_bot := false }

/-- One inbound Zulip event. -/
structure EventRec where
  etype : Option String
  message : Option MessageRec
deriving DecidableEq

/-- The self/bot filter (line 161): drop when the sender is the bot itself
(`me_id` known and equal) or any bot identity. -/
def selfOrBot (me_id : Option Nat) (msg : MessageRec) : Bool :=
  (me_id.isSome && (msg.sender_id == me_id)) || msg.sender_is_bot

/-- The addressing filter (line 165): drop when the message is neither a
direct message nor contains the mention marker `@**`. -/
def notAddressed (msg : MessageRec) (text : String) : Bool :=
  (!(msg.mtype == some ("private"))) && (!containsSub mentionPat text.data)

/-- The per-event handler (lines 150-220 of src/bot/main.py), returning
the ordered list of outbound effects, or `.error` when a Python exception
escapes the handler. -/
def handler (cfg : BotConfig) (env : ZulipEnv) (me_id : Option Nat)
    (event : EventRec) : Except String (List Effect) :=
  if event.etype ≠ some ("message") then Except.ok []
  else
    let msg := event.message.getD emptyMsg
    let text := pyStrip (msg.content.getD "")
    if selfOrBot me_id msg then Except.ok []
    else if notAddressed msg text then Except.ok []
    else if helpMatch text.data then
      Except.ok [Effect.dm msg.sender_email (helpText cfg)]
    else
      match mfaSearch (lowerList text.data) with
      | none => Except.ok []
      | some (label_client, label_service) =>
        handleGenerate cfg env msg.sender_email label_client label_service

/-- Split a character list at the first occurrence of `sep`, modelling
Python `s.split(sep, 1)` when the separator occurs (`none` otherwise). -/
def splitOnce (sep : Char) : List Char → Option (List Char × List Char)
  | [] => none
  | c :: cs =>
    if c = sep then some ([], cs)
    else
      match splitOnce sep cs with
      | some (a, b) => some (c :: a, b)
      | none => none

/-- `_load_label_map` (lines 12-26 of src/gateway/app.py), called inside
each request handler: split `LABELS` on commas, keep stripped non-empty
pairs containing a colon, and map stripped label to stripped seed. -/
def load_label_map (g : String → Option String) : List (String × String) :=
  (splitOnChar ',' [] ((g ("LABELS")).getD "").data).filterMap (fun p0 =>
    let p := pyStrip (String.mk p0)
    if p = "" then none
    else
      match splitOnce ':' p.data with
      | none => none
      | some (a, b) => some (pyStrip (String.mk a), pyStrip (String.mk b)))

/-- Python-dict lookup over the association list built by
`_load_label_map`: later duplicate labels overwrite earlier ones. -/
def labelLookup (m : List (String × String)) (k : String) : Option String :=
  ((m.filter (fun p => p.1 == k)).getLast?).map (fun p => p.2)

/-- `_params` (lines 31-35): `TOTP_PERIOD` and `TOTP_DIGITS` parsed as
integers per request; `none` models the `ValueError` a malformed value
raises. -/
def gwParams (g : String → Option String) : Option (Int × Int) :=
  match pyIntParse ((g ("TOTP_PERIOD")).getD ("30")),
      pyIntParse ((g ("TOTP_DIGITS")).getD ("6")) with
  | some p, some d => some (p, d)
  | _, _ => none

/-- The `API_KEY` value the gateway compares against (line 42). -/
def apiKeyOf (g : String → Option String) : String :=
  pyStrip ((g ("API_KEY")).getD "")

/-- `_require_api_key` (lines 37-49): `none` means the check passes,
`some (status, detail)` models the raised `HTTPException`. -/
def require_api_key (g : String → Option String) (auth : Option String) :
    Option (Nat × String) :=
  let expected := apiKeyOf g
  if expected = "" then none
  else
    match auth with
    | none => some (401, "missing bearer token")
    | some a =>
      if a = "" then some (401, "missing bearer token")
      else if !(pyStartsWith a ("Bearer ")) then some (401, "missing bearer token")
      else
        let token := pyStrip (pyDrop a 7)
        if token = expected then none else some (403, "invalid token")

/-- Response of the `/totp/{client}/{service}` route. -/
inductive GwResp where
  | err : Nat → String → GwResp
  | ok : String → String → String → Int → String → GwResp
  | crash : String → GwResp
deriving DecidableEq

/-- Response of the `/code` route. -/
inductive CodeResp where
  | err : Nat → String → CodeResp
  | ok : String → Int → CodeResp
  | crash : String → CodeResp
deriving DecidableEq

/-- The `/totp/{client}/{service}` route (lines 66-82 of
src/gateway/app.py).  `totpNow` injects the pyotp primitive
(seed, period, digits to code) and `now` the UTC timestamp string. -/
def totp_route (g : String → Option String) (totpNow : String → Int → Int → String)
    (now : String) (client service : String) (auth : Option String) : GwResp :=
  match require_api_key g auth with
  | some (st, d) => GwResp.err st d
  | none =>
    let label := client ++ "-" ++ service
    match labelLookup (load_label_map g) label with
    | none => GwResp.err 404 ("unknown label")
    | some seed =>
      match gwParams g with
      | none => GwResp.crash ("ValueError")
      | some (period, digits) =>
        GwResp.ok client service (totpNow seed period digits) period now

/-- The `/code?label=...` route (lines 56-63 of src/gateway/app.py). -/
def code_route (g : String → Option String) (totpNow : String → Int → Int → String)
    (label : String) (auth : Option String) : CodeResp :=
  match require_api_key g auth with
  | some (st, d) => CodeResp.err st d
  | none =>
    match labelLookup (load_label_map g) label with
    | none => CodeResp.err 404 ("unknown label")
    | some seed =>
      match gwParams g with
      | none => CodeResp.crash ("ValueError")
      | some (period, digits) => CodeResp.ok (totpNow seed period digits) period

/-- Did the `/totp` route deliver a code? -/
def gwIsOk : GwResp → Bool
  | GwResp.ok _ _ _ _ _ => true
  | _ => false

/-- Did the `/code` route deliver a code? -/
def codeIsOk : CodeResp → Bool
  | CodeResp.ok _ _ => true
  | _ => false

/-- The delivery flag `send_stream_message` returns once the stream list
is known. -/
def sendStreamOk (env : ZulipEnv) (l : List StreamMeta) (name topic content : String) : Bool :=
  match streamLookup l name with
  | none => false
  | some m => env.send_result m.stream_id topic content

/-- The effects `send_stream_message` emits once the stream list is known. -/
def sendStreamFx (l : List StreamMeta) (name topic content : String) : List Effect :=
  match streamLookup l name with
  | none => []
  | some m => [Effect.streamPost m.stream_id topic content]

/-- The effects of one audit attempt: the primary post, then — exactly when
the primary was not delivered — the fallback post under the same topic with
the fallback marker appended. -/
def auditFx (cfg : BotConfig) (env : ZulipEnv) (l : List StreamMeta)
    (primary line : String) : List Effect :=
  sendStreamFx l primary cfg.audit_topic line ++
    (if sendStreamOk env l primary cfg.audit_topic line then []
     else sendStreamFx l cfg.fallback_stream cfg.audit_topic (line ++ " (logged here)"))

/-- A demo bot configuration: all environment variables unset, so the
audit topic is `channel events` and the fallback stream `general`. -/
def cfgDemo : BotConfig := botConfigOf (fun _ => none)

/-- A demo successful gateway body. -/
def dataDemo : TotpData :=
  ⟨some ("123456"), some 30, some ("2024-01-01T00:00:00+00:00")⟩

/-- A demo environment: streams `Acme` (id 7) and `general` (id 1),
channel `acme` has subscribers 42 and 50, user 42 is `bob@example.com`,
every post succeeds, and the gateway answers 200 with `dataDemo`. -/
def envDemo : ZulipEnv :=
  ⟨some [⟨"Acme", 7⟩, ⟨"general", 1⟩],
   (fun n => if n = ("acme") then some [42, 50] else none),
   some [⟨"bob@example.com", 42, "Bob B"⟩],
   (fun _ _ _ => true),
   GatewayResp.resp 200 "" (some dataDemo) ""⟩

/-- A variant of `envDemo` whose stream list lacks `acme` and where every
stream post fails. -/
def envFallbackDemo : ZulipEnv :=
  ⟨some [⟨"general", 1⟩],
   (fun n => if n = ("acme") then some [42, 50] else none),
   some [⟨"bob@example.com", 42, "Bob B"⟩],
   (fun _ _ _ => false),
   GatewayResp.resp 200 "" (some dataDemo) ""⟩

/-- A variant of `envDemo` where the user listing fails. -/
def envNoUsersDemo : ZulipEnv :=
  ⟨some [⟨"Acme", 7⟩, ⟨"general", 1⟩],
   (fun n => if n = ("acme") then some [42, 50] else none),
   none,
   (fun _ _ _ => true),
   GatewayResp.resp 200 "" (some dataDemo) ""⟩

/-- A demo private message from bob with the given text. -/
def msgDemo (content : String) : MessageRec :=
  ⟨some content, some ("private"), "bob@example.com", some 42, false⟩

/-- A demo message event from bob with the given text. -/
def evDemo (content : String) : EventRec :=
  ⟨some ("message"), some (msgDemo content)⟩

/-- A gateway process environment carrying one label. -/
def gLabelsDemo : String → Option String :=
  fun k => if k = ("LABELS") then some ("acme-gmail:SEED") else none

/-- A gateway process environment carrying the same label plus junk values
for every unrelated variable. -/
def gJunkDemo : String → Option String :=
  fun k =>
    if k = ("LABELS") then some ("acme-gmail:SEED")
    else if k = ("TOTP_PERIOD") then none
    else if k = ("TOTP_DIGITS") then none
    else if k = ("API_KEY") then none
    else some ("junk")

/-- A gateway process environment with nothing set. -/
def gEmptyDemo : String → Option String := fun _ => none

/-- A fixed stand-in for the injected pyotp primitive. -/
def totpNowDemo : String → Int → Int → String := fun _ _ _ => "000000"

theorem handler_eq_filtered (cfg : BotConfig) (env : ZulipEnv) (me_id : Option Nat)
    (event : EventRec) (msg : MessageRec)
    (hEt : event.etype = some ("message")) (hM : event.message = some msg) :
    handler cfg env me_id event =
      (if selfOrBot me_id msg then Except.ok []
       else if notAddressed msg (pyStrip (msg.content.getD "")) then Except.ok []
       else if helpMatch (pyStrip (msg.content.getD "")).data then
         Except.ok [Effect.dm msg.sender_email (helpText cfg)]
       else
         match mfaSearch (lowerList (pyStrip (msg.content.getD "")).data) with
         | none => Except.ok []
         | some (c, s) => handleGenerate cfg env msg.sender_email c s) := by
  unfold handler
  simp [hEt, hM]

theorem send_stream_message_eq (env : ZulipEnv) (l : List StreamMeta)
    (name topic content : String) (h : env.get_streams = some l) :
    send_stream_message env name topic content =
      Except.ok (sendStreamOk env l name topic content, sendStreamFx l name topic content) := by
  unfold send_stream_message list_streams sendStreamOk sendStreamFx
  rw [h]
  cases h2 : streamLookup l name <;> simp [Except.bind, h2]

theorem audit_log_eq (cfg : BotConfig) (env : ZulipEnv) (l : List StreamMeta)
    (primary line : String) (h : env.get_streams = some l) :
    audit_log cfg env primary line = Except.ok (auditFx cfg env l primary line) := by
  unfold audit_log auditFx
  rw [send_stream_message_eq env l primary cfg.audit_topic line h]
  cases hok : sendStreamOk env l primary cfg.audit_topic line
  · rw [send_stream_message_eq env l cfg.fallback_stream cfg.audit_topic
      (line ++ " (logged here)") h]
    rfl
  · simp [Except.bind]

theorem sendStreamFx_all_posts (l : List StreamMeta) (name topic content : String) :
    ∀ e ∈ sendStreamFx l name topic content,
      ∃ sid, e = Effect.streamPost sid topic content := by
  unfold sendStreamFx
  cases streamLookup l name <;> simp

theorem auditFx_all_audit_posts (cfg : BotConfig) (env : ZulipEnv) (l : List StreamMeta)
    (primary line : String) :
    ∀ e ∈ auditFx cfg env l primary line,
      ∃ sid c, e = Effect.streamPost sid cfg.audit_topic c := by
  unfold auditFx
  intro e he
  rcases List.mem_append.mp he with h1 | h2
  · rcases sendStreamFx_all_posts l primary cfg.audit_topic line e h1 with ⟨sid, rfl⟩
    exact ⟨sid, line, rfl⟩
  · by_cases hok : sendStreamOk env l primary cfg.audit_topic line = true
    · simp [hok] at h2
    · simp [hok] at h2
      rcases sendStreamFx_all_posts l cfg.fallback_stream cfg.audit_topic
        (line ++ " (logged here)") e h2 with ⟨sid, rfl⟩
      exact ⟨sid, line ++ " (logged here)", rfl⟩

theorem fetch_totp_cases (lc ls em : String) (g : GatewayResp) :
    (∃ err, fetch_totp lc ls em g = (false, err, none)) ∨
    (∃ d, fetch_totp lc ls em g = (true, "", some d)) := by
  unfold fetch_totp
  cases g with
  | exn e => exact Or.inl ⟨"Gateway error: " ++ e, rfl⟩
  | resp st et b jt =>
    by_cases h4 : st = 404
    · simp [h4]
    · by_cases hr : (400 ≤ st && st < 600) = true
      · simp [h4, hr]
      · cases b with
        | none => simp [h4, hr]
        | some d => simp [h4, hr]

theorem dropLit_sound (lit : List Char) : ∀ cs rest : List Char,
    dropLit lit cs = some rest → cs = lit ++ rest := by
  induction lit with
  | nil =>
    intro cs rest h
    simp [dropLit] at h
    simp [h]
  | cons a as ih =>
    intro cs rest h
    cases cs with
    | nil => simp [dropLit] at h
    | cons c cs' =>
      unfold dropLit at h
      by_cases hc : c = a
      · rw [if_pos hc] at h
        rw [hc, List.cons_append]
        exact congrArg (a :: ·) (ih cs' rest h)
      · rw [if_neg hc] at h
        cases h

theorem matchMfaAt_sound (cs : List Char) (c s : String)
    (h : matchMfaAt cs = some (c, s)) :
    ∃ post, cs = mfaLit ++ (c.data ++ ('-' :: (s.data ++ post))) ∧
      c.data ≠ [] ∧ s.data ≠ [] ∧
      (∀ ch ∈ c.data, isLabelChar ch = true) ∧
      (∀ ch ∈ s.data, isLabelChar ch = true) ∧
      (∀ ch, post.head? = some ch → isWordChar ch = false) := by
  unfold matchMfaAt at h
  cases hd : dropLit mfaLit cs with
  | none =>
    rw [hd] at h
    exact Option.noConfusion h
  | some rest =>
    rw [hd] at h
    simp only [] at h
    have hcs : cs = mfaLit ++ rest := dropLit_sound mfaLit cs rest hd
    by_cases hl : helpLookahead rest = true
    · simp [hl] at h
    · rw [if_neg hl] at h
      cases hdw : rest.dropWhile isLabelChar with
      | nil =>
        rw [hdw] at h
        simp only [] at h
        exact Option.noConfusion h
      | cons d r2 =>
        rw [hdw] at h
        simp only [] at h
        by_cases hdash : d = '-'
        · rw [if_pos hdash] at h
          by_cases he1 : (rest.takeWhile isLabelChar).isEmpty = true
          · simp [he1] at h
          · rw [if_neg he1] at h
            by_cases he2 : (r2.takeWhile isLabelChar).isEmpty = true
            · simp [he2] at h
            · rw [if_neg he2] at h
              have hne1 : rest.takeWhile isLabelChar ≠ [] := by
                intro hq
                rw [hq] at he1
                exact he1 rfl
              have hne2 : r2.takeWhile isLabelChar ≠ [] := by
                intro hq
                rw [hq] at he2
                exact he2 rfl
              have hrest : rest = rest.takeWhile isLabelChar ++ (d :: r2) := by
                conv_lhs => rw [← List.takeWhile_append_dropWhile isLabelChar rest]
                rw [hdw]
              have hr2 : r2 = r2.takeWhile isLabelChar ++ r2.dropWhile isLabelChar :=
                (List.takeWhile_append_dropWhile isLabelChar r2).symm
              cases hdw2 : r2.dropWhile isLabelChar with
              | nil =>
                rw [hdw2] at h
                simp only [] at h
                injection h with hpair
                injection hpair with hc hs
                have hcdata : c.data = List.takeWhile isLabelChar rest := by rw [← hc]
                have hsdata : s.data = List.takeWhile isLabelChar r2 := by rw [← hs]
                have hr2eq : r2 = List.takeWhile isLabelChar r2 := by
                  conv_lhs => rw [hr2, hdw2, List.append_nil]
                refine ⟨[], ?_, ?_, ?_, ?_, ?_, ?_⟩
                · rw [hcs, hcdata, hsdata]
                  refine congrArg (mfaLit ++ ·) ?_
                  calc rest = List.takeWhile isLabelChar rest ++ (d :: r2) := hrest
                    _ = List.takeWhile isLabelChar rest ++
                        ('-' :: (List.takeWhile isLabelChar r2 ++ [])) := by
                      rw [hdash, List.append_nil, ← hr2eq]
                · rw [hcdata]
                  exact hne1
                · rw [hsdata]
                  exact hne2
                · rw [hcdata]
                  intro ch hch
                  exact List.mem_takeWhile_imp hch
                · rw [hsdata]
                  intro ch hch
                  exact List.mem_takeWhile_imp hch
                · intro ch hch
                  cases hch
              | cons e tail =>
                rw [hdw2] at h
                simp only [] at h
                by_cases hw : isWordChar e = true
                · simp [hw] at h
                · rw [if_neg hw] at h
                  injection h with hpair
                  injection hpair with hc hs
                  have hcdata : c.data = List.takeWhile isLabelChar rest := by rw [← hc]
                  have hsdata : s.data = List.takeWhile isLabelChar r2 := by rw [← hs]
                  have hr2eq : r2 = List.takeWhile isLabelChar r2 ++ (e :: tail) := by
                    conv_lhs => rw [hr2, hdw2]
                  refine ⟨e :: tail, ?_, ?_, ?_, ?_, ?_, ?_⟩
                  · rw [hcs, hcdata, hsdata]
                    refine congrArg (mfaLit ++ ·) ?_
                    calc rest = List.takeWhile isLabelChar rest ++ (d :: r2) := hrest
                      _ = List.takeWhile isLabelChar rest ++
                          ('-' :: (List.takeWhile isLabelChar r2 ++ (e :: tail))) := by
                        rw [hdash, ← hr2eq]
                  · rw [hcdata]
                    exact hne1
                  · rw [hsdata]
                    exact hne2
                  · rw [hcdata]
                    intro ch hch
                    exact List.mem_takeWhile_imp hch
                  · rw [hsdata]
                    intro ch hch
                    exact List.mem_takeWhile_imp hch
                  · intro ch hch
                    injection hch with hch
                    rw [← hch]
                    exact Bool.eq_false_iff.mpr hw
        · rw [if_neg hdash] at h
          cases h

theorem mfaSearch_sound : ∀ (cs : List Char) (c s : String),
    mfaSearch cs = some (c, s) →
    ∃ pre post, cs = pre ++ (mfaLit ++ (c.data ++ ('-' :: (s.data ++ post)))) ∧
      c.data ≠ [] ∧ s.data ≠ [] ∧
      (∀ ch ∈ c.data, isLabelChar ch = true) ∧
      (∀ ch ∈ s.data, isLabelChar ch = true) ∧
      (∀ ch, post.head? = some ch → isWordChar ch = false) := by
  intro cs
  induction cs with
  | nil =>
    intro c s h
    cases h
  | cons a as ih =>
    intro c s h
    unfold mfaSearch at h
    cases hm : matchMfaAt (a :: as) with
    | some r =>
      rw [hm] at h
      injection h with hr
      rcases r with ⟨c', s'⟩
      injection hr with hc hs
      rw [← hc, ← hs]
      rcases matchMfaAt_sound (a :: as) c' s' hm with ⟨post, heq, h1, h2, h3, h4, h5⟩
      exact ⟨[], post, by simpa using heq, h1, h2, h3, h4, h5⟩
    | none =>
      rw [hm] at h
      rcases ih c s h with ⟨pre, post, heq, h1, h2, h3, h4, h5⟩
      exact ⟨a :: pre, post, by rw [List.cons_append, ← heq], h1, h2, h3, h4, h5⟩

theorem handleGenerate_denied (cfg : BotConfig) (env : ZulipEnv)
    (email c s dn : String) (l : List StreamMeta) (uid? : Option Nat)
    (h : env.get_streams = some l)
    (hu : get_user_id_and_name env email = (uid?, dn))
    (hden : allowed_check env c l uid? = false) :
    handleGenerate cfg env email c s =
      Except.ok (Effect.dm email (deniedDm c s) :: auditFx cfg env l c (deniedLine dn s c)) := by
  unfold handleGenerate
  have hls : list_streams env = Except.ok l := by
    unfold list_streams
    rw [h]
  rw [hls]
  simp only [Except.bind]
  rw [hu]
  simp only [hden, Bool.false_eq_true, if_false]
  rw [audit_log_eq cfg env l c (deniedLine dn s c) h]

theorem handleGenerate_allowed (cfg : BotConfig) (env : ZulipEnv)
    (email c s dn : String) (l : List StreamMeta) (uid : Nat)
    (h : env.get_streams = some l)
    (hu : get_user_id_and_name env email = (some uid, dn))
    (hin : in_client_stream env c uid l = true) :
    handleGenerate cfg env email c s = handleFetch cfg env email c s dn := by
  unfold handleGenerate
  have hls : list_streams env = Except.ok l := by
    unfold list_streams
    rw [h]
  rw [hls]
  simp only [Except.bind]
  rw [hu]
  have hal : allowed_check env c l (some uid) = true := by
    unfold allowed_check
    exact hin
  simp only [hal, if_true]

theorem handleFetch_fail (cfg : BotConfig) (env : ZulipEnv)
    (email c s dn err : String) (l : List StreamMeta)
    (h : env.get_streams = some l)
    (hf : fetch_totp c s email env.gateway = (false, err, none)) :
    handleFetch cfg env email c s dn =
      Except.ok (Effect.gatewayCall c s email :: Effect.dm email ("❌ " ++ err)
        :: auditFx cfg env l c (failLine dn s err)) := by
  unfold handleFetch
  rw [hf]
  simp only [Bool.false_eq_true, if_false]
  rw [audit_log_eq cfg env l c (failLine dn s err) h]
  rfl

theorem handleFetch_ok (cfg : BotConfig) (env : ZulipEnv)
    (email c s dn : String) (d : TotpData) (l : List StreamMeta)
    (h : env.get_streams = some l)
    (hf : fetch_totp c s email env.gateway = (true, "", some d)) :
    handleFetch cfg env email c s dn =
      Except.ok (Effect.gatewayCall c s email :: Effect.dm email (successDm c s d)
        :: auditFx cfg env l c (successLine dn s)) := by
  unfold handleFetch
  rw [hf]
  simp only [if_true]
  rw [audit_log_eq cfg env l c (successLine dn s) h]
  rfl

theorem auditFx_no_dm (cfg : BotConfig) (env : ZulipEnv) (l : List StreamMeta)
    (primary line : String) :
    ∀ e ∈ auditFx cfg env l primary line, isDm e = false ∧ isStreamPost e = true := by
  intro e he
  rcases auditFx_all_audit_posts cfg env l primary line e he with ⟨sid, c, rfl⟩
  exact ⟨rfl, rfl⟩

theorem countP_one_dm (pre fx : List Effect) (em t : String)
    (hpre : ∀ e ∈ pre, isDm e = false) (hfx : ∀ e ∈ fx, isDm e = false) :
    (pre ++ Effect.dm em t :: fx).countP isDm = 1 := by
  rw [List.countP_append, List.countP_cons]
  have h1 : pre.countP isDm = 0 := by
    rw [List.countP_eq_zero]
    intro a ha
    simp [hpre a ha]
  have h2 : fx.countP isDm = 0 := by
    rw [List.countP_eq_zero]
    intro a ha
    simp [hfx a ha]
  simp [h1, h2, isDm]

theorem get_user_id_none (env : ZulipEnv) (email : String)
    (hU : env.get_users = none ∨
      ∃ ms, env.get_users = some ms ∧ ∀ m ∈ ms, m.email ≠ email) :
    get_user_id_and_name env email = (none, emailLocal email) := by
  unfold get_user_id_and_name
  rcases hU with h | ⟨ms, hm, hall⟩
  · rw [h]
  · rw [hm]
    have hf : ms.find? (fun m => m.email == email) = none := by
      rw [List.find?_eq_none]
      intro m hmem
      simp [hall m hmem]
    simp [hf]

/-- C1: the access check `in_client_stream` returns Allowed (`true`) iff
the requester's user id is in the membership set returned for the channel
named exactly by the client label; when the channel does not exist or the
membership lookup does not succeed (modelled as `get_subscribers = none`),
it returns Denied (`false`).  The check is a total function of the
environment, so no exception can escape it. -/
theorem c1_access_check (env : ZulipEnv) (client_name : String) (user_id : Nat)
    (stream_map : List StreamMeta) :
    (in_client_stream env client_name user_id stream_map = true ↔
      ∃ subs, env.get_subscribers client_name = some subs ∧ user_id ∈ subs) ∧
    (env.get_subscribers client_name = none →
      in_client_stream env client_name user_id stream_map = false) := by
  unfold in_client_stream
  cases h : env.get_subscribers client_name with
  | none => simp
  | some subs => simp

/-- C1 witness: with a concrete environment whose channel `acme` has
subscribers `[42, 50]` and every other lookup failing, user 42 is allowed
on `acme` and everyone is denied on the unknown channel `ghost`. -/
theorem c1_access_check_witness :
    in_client_stream
      ⟨none, (fun n => if n = ("acme") then some [42, 50] else none), none,
        (fun _ _ _ => false), GatewayResp.exn ""⟩ ("acme") 42 [] = true ∧
    in_client_stream
      ⟨none, (fun n => if n = ("acme") then some [42, 50] else none), none,
        (fun _ _ _ => false), GatewayResp.exn ""⟩ ("ghost") 42 [] = false := by
  constructor
  · exact (c1_access_check _ ("acme") 42 []).1.mpr ⟨[42, 50], by decide, by decide⟩
  · exact (c1_access_check _ ("ghost") 42 []).2 (by decide)

/-- C7 (amended): `fetch_totp` maps an HTTP 404 response to the
user-visible `Unknown label.` outcome, and a raised network exception, a
4xx/5xx status other than 404, or a malformed JSON body to a
`Gateway error: ...` outcome carrying the failure detail; the two failure
classes are distinguishable because no `Gateway error: ...` text equals
`Unknown label.`.  A response outside 4xx/5xx (2xx, but also 1xx/3xx,
since `raise_for_status` raises only for 4xx/5xx) with a parseable body is
treated as success. -/
theorem c7_fetch_failure_classes (lc ls em : String) (g : GatewayResp) :
    (∀ et b jt, g = GatewayResp.resp 404 et b jt →
      fetch_totp lc ls em g = (false, "Unknown label.", none)) ∧
    (∀ e, g = GatewayResp.exn e →
      fetch_totp lc ls em g = (false, "Gateway error: " ++ e, none)) ∧
    (∀ st et b jt, g = GatewayResp.resp st et b jt → st ≠ 404 → 400 ≤ st → st < 600 →
      fetch_totp lc ls em g = (false, "Gateway error: " ++ et, none)) ∧
    (∀ st et jt, g = GatewayResp.resp st et none jt → st ≠ 404 → ¬(400 ≤ st ∧ st < 600) →
      fetch_totp lc ls em g = (false, "Gateway error: " ++ jt, none)) ∧
    (∀ detail : String, ("Unknown label.") ≠ ("Gateway error: ") ++ detail) ∧
    (∀ st et d jt, g = GatewayResp.resp st et (some d) jt → st ≠ 404 →
      ¬(400 ≤ st ∧ st < 600) → fetch_totp lc ls em g = (true, "", some d)) := by
  refine ⟨?_, ?_, ?_, ?_, ?_, ?_⟩
  · rintro et b jt rfl
    simp [fetch_totp]
  · rintro e rfl
    simp [fetch_totp]
  · rintro st et b jt rfl h404 h4 h6
    have hr : (400 ≤ st && st < 600) = true := by simp [h4, h6]
    simp [fetch_totp, h404, hr]
  · rintro st et jt rfl h404 hno
    have hr : (400 ≤ st && st < 600) = false := by
      rcases Nat.lt_or_ge st 400 with h | h
      · simp [Nat.not_le.mpr h]
      · have h6 : ¬ st < 600 := fun hlt => hno ⟨h, hlt⟩
        simp [h6]
    simp [fetch_totp, h404, hr]
  · intro d h
    have h2 : ("Unknown label.").data = (("Gateway error: ") ++ d).data := by rw [h]
    rw [String.data_append] at h2
    have h3 := congrArg List.length h2
    rw [List.length_append] at h3
    simp at h3
    omega
  · rintro st et d jt rfl h404 hno
    have hr : (400 ≤ st && st < 600) = false := by
      rcases Nat.lt_or_ge st 400 with h | h
      · simp [Nat.not_le.mpr h]
      · have h6 : ¬ st < 600 := fun hlt => hno ⟨h, hlt⟩
        simp [h6]
    simp [fetch_totp, h404, hr]

/-- C7 counterexample: a 304 response carrying a well-formed JSON body has
a non-2xx status — a non-success outcome in the words of the claim — yet
`fetch_totp` returns it as a success, not as an `UpstreamError` (and not
as `NotFound`): `raise_for_status` raises only for 4xx/5xx, so statuses
outside that range pass straight to the body parse. -/
theorem c7_non2xx_counterexample :
    fetch_totp ("acme") ("gmail") ("bob@example.com")
      (GatewayResp.resp 304 ("redirect") (some dataDemo) ("jerr")) =
      (true, "", some dataDemo) ∧
    (∀ detail : String,
      fetch_totp ("acme") ("gmail") ("bob@example.com")
        (GatewayResp.resp 304 ("redirect") (some dataDemo) ("jerr")) ≠
        (false, "Gateway error: " ++ detail, none)) ∧
    fetch_totp ("acme") ("gmail") ("bob@example.com")
      (GatewayResp.resp 304 ("redirect") (some dataDemo) ("jerr")) ≠
      (false, "Unknown label.", none) := by
  have h1 : fetch_totp ("acme") ("gmail") ("bob@example.com")
      (GatewayResp.resp 304 ("redirect") (some dataDemo) ("jerr")) =
      (true, "", some dataDemo) := by decide
  refine ⟨h1, ?_, ?_⟩
  · intro detail h
    rw [h1] at h
    simp at h
  · intro h
    rw [h1] at h
    simp at h

/-- C7 witness: at concrete responses, a 404 yields the `Unknown label.`
outcome, a raised network exception yields a `Gateway error: ...` outcome,
the two reply texts differ, and a 304 with a parseable body is passed
through as success. -/
theorem c7_fetch_failure_classes_witness :
    fetch_totp ("acme") ("gmail") ("bob@example.com")
      (GatewayResp.resp 404 ("notfound") none ("jerr")) =
        (false, "Unknown label.", none) ∧
    fetch_totp ("acme") ("gmail") ("bob@example.com")
      (GatewayResp.exn ("connection refused")) =
        (false, "Gateway error: connection refused", none) ∧
    ("Unknown label.") ≠ ("Gateway error: ") ++ ("connection refused") ∧
    fetch_totp ("acme") ("gmail") ("bob@example.com")
      (GatewayResp.resp 302 ("redirect") (some dataDemo) ("jerr")) =
        (true, "", some dataDemo) := by
  refine ⟨?_, ?_, ?_, ?_⟩
  · exact (c7_fetch_failure_classes ("acme") ("gmail") ("bob@example.com") _).1
      ("notfound") none ("jerr") rfl
  · exact (c7_fetch_failure_classes ("acme") ("gmail") ("bob@example.com")
      (GatewayResp.exn ("connection refused"))).2.1 ("connection refused") rfl
  · exact (c7_fetch_failure_classes ("acme") ("gmail") ("bob@example.com")
      (GatewayResp.exn "")).2.2.2.2.1 ("connection refused")
  · exact (c7_fetch_failure_classes ("acme") ("gmail") ("bob@example.com")
      (GatewayResp.resp 302 ("redirect") (some dataDemo) ("jerr"))).2.2.2.2.2
      302 ("redirect") dataDemo ("jerr") rfl (by decide) (by decide)

/-- C10: for the gateway routes, an empty or unset `API_KEY` disables the
authorization check entirely; when it is set, a missing or non-Bearer
`Authorization` header is rejected with HTTP 401, a Bearer token different
from `API_KEY` with HTTP 403, and both `/totp/{client}/{service}` and
`/code` return a code only when the check passed, i.e. only when the
presented Bearer token equals `API_KEY`. -/
theorem c10_gateway_auth (g : String → Option String) (auth : Option String) :
    (apiKeyOf g = "" → require_api_key g auth = none) ∧
    (apiKeyOf g ≠ "" → auth = none →
      require_api_key g auth = some (401, "missing bearer token")) ∧
    (∀ a, apiKeyOf g ≠ "" → auth = some a → pyStartsWith a ("Bearer ") = false →
      require_api_key g auth = some (401, "missing bearer token")) ∧
    (∀ a, apiKeyOf g ≠ "" → auth = some a → pyStartsWith a ("Bearer ") = true →
      pyStrip (pyDrop a 7) ≠ apiKeyOf g →
      require_api_key g auth = some (403, "invalid token")) ∧
    (∀ a, apiKeyOf g ≠ "" → auth = some a → pyStartsWith a ("Bearer ") = true →
      pyStrip (pyDrop a 7) = apiKeyOf g → require_api_key g auth = none) ∧
    (∀ totpNow now client service,
      gwIsOk (totp_route g totpNow now client service auth) = true →
      require_api_key g auth = none) ∧
    (∀ totpNow label,
      codeIsOk (code_route g totpNow label auth) = true →
      require_api_key g auth = none) := by
  refine ⟨?_, ?_, ?_, ?_, ?_, ?_, ?_⟩
  · intro h
    simp [require_api_key, apiKeyOf] at h ⊢
    simp [h]
  · rintro h rfl
    simp [require_api_key, apiKeyOf] at h ⊢
    intro hc
    exact absurd hc h
  · rintro a h rfl hns
    by_cases ha : a = ""
    · simp [require_api_key, apiKeyOf] at h ⊢
      simp [h, ha]
    · simp [require_api_key, apiKeyOf] at h ⊢
      simp [h, ha, hns]
  · rintro a h rfl hs hne
    have ha : a ≠ "" := by
      intro he
      rw [he] at hs
      exact absurd hs (by decide)
    simp [require_api_key, apiKeyOf] at h hne ⊢
    simp [h, ha, hs, hne]
  · rintro a h rfl hs heq
    have ha : a ≠ "" := by
      intro he
      rw [he] at hs
      exact absurd hs (by decide)
    simp [require_api_key, apiKeyOf] at h heq ⊢
    simp [h, ha, hs, heq]
  · intro totpNow now client service hok
    unfold totp_route at hok
    cases hra : require_api_key g auth with
    | none => rfl
    | some p =>
      rcases p with ⟨st, d⟩
      rw [hra] at hok
      simp [gwIsOk] at hok
  · intro totpNow label hok
    unfold code_route at hok
    cases hra : require_api_key g auth with
    | none => rfl
    | some p =>
      rcases p with ⟨st, d⟩
      rw [hra] at hok
      simp [codeIsOk] at hok

/-- C10 witness: with `API_KEY` set to `k1`, a missing header yields 401,
a wrong Bearer token yields 403, the right Bearer token passes, and with
`API_KEY` unset the check passes with no header at all. -/
theorem c10_gateway_auth_witness :
    require_api_key (fun k => if k = ("API_KEY") then some ("k1") else none) none =
      some (401, "missing bearer token") ∧
    require_api_key (fun k => if k = ("API_KEY") then some ("k1") else none)
      (some ("Bearer wrong")) = some (403, "invalid token") ∧
    require_api_key (fun k => if k = ("API_KEY") then some ("k1") else none)
      (some ("Bearer k1")) = none ∧
    require_api_key (fun _ => none) none = none := by
  refine ⟨?_, ?_, ?_, ?_⟩
  · exact (c10_gateway_auth _ none).2.1 (by decide) rfl
  · exact (c10_gateway_auth _ (some ("Bearer wrong"))).2.2.2.1 ("Bearer wrong")
      (by decide) rfl (by decide) (by decide)
  · exact (c10_gateway_auth _ (some ("Bearer k1"))).2.2.2.2.1 ("Bearer k1")
      (by decide) rfl (by decide) (by decide)
  · exact (c10_gateway_auth (fun _ => none) none).1 (by decide)

/-- C5: when the stripped message text matches neither the help pattern nor
the generate-code pattern, parsing yields not-a-command, and the handler
produces no effects at all — no replies, no audit posts — for any event
carrying that text. -/
theorem c5_silent_ignore (tRaw : String)
    (hHelp : helpMatch (pyStrip tRaw).data = false)
    (hMfa : mfaSearch (lowerList (pyStrip tRaw).data) = none) :
    parseCommand tRaw = Cmd.noCmd ∧
    ∀ (cfg : BotConfig) (env : ZulipEnv) (me_id : Option Nat) (event : EventRec)
      (msg : MessageRec), event.message = some msg → msg.content = some tRaw →
      handler cfg env me_id event = Except.ok [] := by
  constructor
  · unfold parseCommand
    simp [hHelp, hMfa]
  · intro cfg env me_id event msg hM hC
    by_cases hEt : event.etype = some ("message")
    · rw [handler_eq_filtered cfg env me_id event msg hEt hM, hC]
      simp only [Option.getD_some]
      cases hSelf : selfOrBot me_id msg
      · cases hAddr : notAddressed msg (pyStrip tRaw)
        · simp [hSelf, hAddr, hHelp, hMfa]
        · simp [hSelf, hAddr]
      · simp [hSelf]
    · unfold handler
      simp [hEt]

/-- C5 witness: the text `hello there` parses to no command and the
handler ignores an addressed message carrying it. -/
theorem c5_silent_ignore_witness :
    parseCommand ("hello there") = Cmd.noCmd ∧
    handler cfgDemo envDemo (some 99) (evDemo ("hello there")) = Except.ok [] := by
  have h := c5_silent_ignore ("hello there") (by decide) (by decide)
  exact ⟨h.1, h.2 cfgDemo envDemo (some 99) (evDemo ("hello there"))
    (msgDemo ("hello there")) rfl rfl⟩

/-- C4 counterexample: the exact token `help`, in an addressed private
message that reaches the parser, is not recognized by `CMD_HELP`
(whose pattern only contains the tokens `!mfa` and `!mfa-help`), parses to
not-a-command, and the handler sends no reply at all — refuting the claim
that `help` is recognized as the Help command and answered with the help
text. -/
theorem c4_help_counterexample :
    helpMatch (("help").data) = false ∧
    parseCommand ("help") = Cmd.noCmd ∧
    handler cfgDemo envDemo (some 99) (evDemo ("help")) = Except.ok [] := by
  refine ⟨by decide, by decide, by decide⟩

/-- C4 (amended): each of the exact tokens `!mfa` and `!mfa-help`
appearing whitespace-delimited in an addressed message is recognized as
the Help command, and the handler replies to the sender with the static
help text and nothing else (in particular no audit post); the bare token
`help` is not a command. -/
theorem c4_help_tokens (cfg : BotConfig) (env : ZulipEnv) (me_id : Option Nat)
    (event : EventRec) (msg : MessageRec)
    (hEt : event.etype = some ("message"))
    (hM : event.message = some msg)
    (hSelf : selfOrBot me_id msg = false)
    (hAddr : notAddressed msg (pyStrip (msg.content.getD "")) = false)
    (hHelp : helpMatch (pyStrip (msg.content.getD "")).data = true) :
    handler cfg env me_id event = Except.ok [Effect.dm msg.sender_email (helpText cfg)] ∧
    (∀ e ∈ [Effect.dm msg.sender_email (helpText cfg)], isStreamPost e = false) ∧
    helpMatch (("!mfa").data) = true ∧
    helpMatch (("!mfa-help").data) = true ∧
    helpMatch (("help").data) = false := by
  refine ⟨?_, by simp [isStreamPost], by decide, by decide, by decide⟩
  rw [handler_eq_filtered cfg env me_id event msg hEt hM]
  simp [hSelf, hAddr, hHelp]

/-- C4 witness: on the addressed message `!mfa-help` from bob, the handler
replies with the help text and produces no stream post. -/
theorem c4_help_tokens_witness :
    handler cfgDemo envDemo (some 99) (evDemo ("!mfa-help")) =
      Except.ok [Effect.dm ("bob@example.com") (helpText cfgDemo)] ∧
    (∀ e ∈ [Effect.dm ("bob@example.com") (helpText cfgDemo)], isStreamPost e = false) := by
  have h := c4_help_tokens cfgDemo envDemo (some 99) (evDemo ("!mfa-help"))
    (msgDemo ("!mfa-help")) rfl rfl (by decide) (by decide) (by decide)
  exact ⟨h.1, h.2.1⟩

/-- C6: on every audit record attempt made once the stream listing
succeeded, the audit call returns without an exception and emits only
stream posts under the audit topic (nothing is sent to the requester);
when the primary post is not delivered — the channel is unknown or the
post fails — the fallback post under the same topic with the
`" (logged here)"` marker appended is attempted; when the primary channel
is unknown no primary post is emitted at all, and both attempts failing
still returns without an exception. -/
theorem c6_audit_fallback (cfg : BotConfig) (env : ZulipEnv) (l : List StreamMeta)
    (primary line : String) (h : env.get_streams = some l) :
    audit_log cfg env primary line = Except.ok (auditFx cfg env l primary line) ∧
    (∀ e ∈ auditFx cfg env l primary line,
      ∃ sid c, e = Effect.streamPost sid cfg.audit_topic c) ∧
    (sendStreamOk env l primary cfg.audit_topic line = false →
      auditFx cfg env l primary line =
        sendStreamFx l primary cfg.audit_topic line ++
          sendStreamFx l cfg.fallback_stream cfg.audit_topic (line ++ " (logged here)")) ∧
    (streamLookup l primary = none → sendStreamFx l primary cfg.audit_topic line = []) := by
  refine ⟨audit_log_eq cfg env l primary line h,
    auditFx_all_audit_posts cfg env l primary line, ?_, ?_⟩
  · intro hq
    unfold auditFx
    simp [hq]
  · intro hn
    unfold sendStreamFx
    simp [hn]

/-- C6 witness: in an environment whose stream list lacks `acme` and where
every post fails, the audit attempt for primary channel `acme` returns
without exception, emitting only the marked fallback post to `general`
under the audit topic. -/
theorem c6_audit_fallback_witness :
    audit_log cfgDemo envFallbackDemo ("acme") ("line1") =
      Except.ok [Effect.streamPost 1 ("channel events") ("line1 (logged here)")] ∧
    sendStreamFx [⟨"general", 1⟩] ("acme") cfgDemo.audit_topic ("line1") = [] := by
  have h := c6_audit_fallback cfgDemo envFallbackDemo [⟨"general", 1⟩] ("acme") ("line1") rfl
  constructor
  · rw [h.1]
    decide
  · exact h.2.2.2 (by decide)

/-- C2: for every message the handler parses as a GenerateCode command
(once the stream listing of line 180 succeeded), whether the outcome is
denial, upstream failure, or success, the handler emits exactly one direct
message to the requester and exactly one audit attempt on the client
channel, and the reply precedes every audit post; the only other possible
effect is the single gateway call, which is never a reply. -/
theorem c2_one_reply_one_audit (cfg : BotConfig) (env : ZulipEnv) (me_id : Option Nat)
    (event : EventRec) (msg : MessageRec) (c s : String) (l : List StreamMeta)
    (hEt : event.etype = some ("message"))
    (hM : event.message = some msg)
    (hSelf : selfOrBot me_id msg = false)
    (hAddr : notAddressed msg (pyStrip (msg.content.getD "")) = false)
    (hHelp : helpMatch (pyStrip (msg.content.getD "")).data = false)
    (hMfa : mfaSearch (lowerList (pyStrip (msg.content.getD "")).data) = some (c, s))
    (hStreams : env.get_streams = some l) :
    ∃ (pre : List Effect) (dmText line : String),
      handler cfg env me_id event =
        Except.ok (pre ++ Effect.dm msg.sender_email dmText :: auditFx cfg env l c line) ∧
      (pre = [] ∨ pre = [Effect.gatewayCall c s msg.sender_email]) ∧
      (∀ e ∈ pre, isDm e = false) ∧
      (∀ e ∈ auditFx cfg env l c line, isDm e = false ∧ isStreamPost e = true) ∧
      (pre ++ Effect.dm msg.sender_email dmText :: auditFx cfg env l c line).countP
        isDm = 1 := by
  have hh : handler cfg env me_id event = handleGenerate cfg env msg.sender_email c s := by
    rw [handler_eq_filtered cfg env me_id event msg hEt hM]
    simp [hSelf, hAddr, hHelp, hMfa]
  rcases hu : get_user_id_and_name env msg.sender_email with ⟨uid?, dn⟩
  by_cases hal : allowed_check env c l uid? = true
  · cases uid? with
    | none => exact absurd hal (by simp [allowed_check])
    | some uid =>
      have hin : in_client_stream env c uid l = true := by
        simpa [allowed_check] using hal
      have hg := handleGenerate_allowed cfg env msg.sender_email c s dn l uid hStreams hu hin
      rcases fetch_totp_cases c s msg.sender_email env.gateway with ⟨err, hf⟩ | ⟨d, hf⟩
      · refine ⟨[Effect.gatewayCall c s msg.sender_email], "❌ " ++ err,
          failLine dn s err, ?_, Or.inr rfl, ?_, auditFx_no_dm cfg env l c _, ?_⟩
        · rw [hh, hg, handleFetch_fail cfg env msg.sender_email c s dn err l hStreams hf]
          rfl
        · intro e he
          rw [List.mem_singleton] at he
          rw [he]
          rfl
        · apply countP_one_dm
          · intro e he
            rw [List.mem_singleton] at he
            rw [he]
            rfl
          · intro e he
            exact (auditFx_no_dm cfg env l c _ e he).1
      · refine ⟨[Effect.gatewayCall c s msg.sender_email], successDm c s d,
          successLine dn s, ?_, Or.inr rfl, ?_, auditFx_no_dm cfg env l c _, ?_⟩
        · rw [hh, hg, handleFetch_ok cfg env msg.sender_email c s dn d l hStreams hf]
          rfl
        · intro e he
          rw [List.mem_singleton] at he
          rw [he]
          rfl
        · apply countP_one_dm
          · intro e he
            rw [List.mem_singleton] at he
            rw [he]
            rfl
          · intro e he
            exact (auditFx_no_dm cfg env l c _ e he).1
  · have hden : allowed_check env c l uid? = false := Bool.eq_false_iff.mpr hal
    have hg := handleGenerate_denied cfg env msg.sender_email c s dn l uid? hStreams hu hden
    refine ⟨[], deniedDm c s, deniedLine dn s c, ?_, Or.inl rfl, by simp,
      auditFx_no_dm cfg env l c _, ?_⟩
    · rw [hh, hg]
      rfl
    · apply countP_one_dm
      · simp
      · intro e he
        exact (auditFx_no_dm cfg env l c _ e he).1

/-- C2 witness: the success scenario — bob, a member of channel `acme`,
sends `!mfa-acme-gmail` and the gateway answers 200 — yields one gateway
call, then exactly one direct-message reply, then one audit attempt. -/
theorem c2_one_reply_one_audit_witness :
    ∃ (pre : List Effect) (dmText line : String),
      handler cfgDemo envDemo (some 99) (evDemo ("!mfa-acme-gmail")) =
        Except.ok (pre ++ Effect.dm ("bob@example.com") dmText ::
          auditFx cfgDemo envDemo [⟨"Acme", 7⟩, ⟨"general", 1⟩] ("acme") line) ∧
      (pre = [] ∨ pre = [Effect.gatewayCall ("acme") ("gmail") ("bob@example.com")]) ∧
      (∀ e ∈ pre, isDm e = false) ∧
      (∀ e ∈ auditFx cfgDemo envDemo [⟨"Acme", 7⟩, ⟨"general", 1⟩] ("acme") line,
        isDm e = false ∧ isStreamPost e = true) ∧
      (pre ++ Effect.dm ("bob@example.com") dmText ::
        auditFx cfgDemo envDemo [⟨"Acme", 7⟩, ⟨"general", 1⟩] ("acme") line).countP
        isDm = 1 :=
  c2_one_reply_one_audit cfgDemo envDemo (some 99) (evDemo ("!mfa-acme-gmail"))
    (msgDemo ("!mfa-acme-gmail")) ("acme") ("gmail") [⟨"Acme", 7⟩, ⟨"general", 1⟩]
    rfl rfl (by decide) (by decide) (by decide) (by decide) rfl

/-- C9: when the requester's user id cannot be resolved — the user listing
fails, or the sender's email is not among the listed members — a parsed
generate-code request is treated as access-denied: the handler sends the
access-denied reply, audits the denial with the part of the email before
the `@` as the display name, and never calls the code-generation gateway. -/
theorem c9_unknown_requester_denied (cfg : BotConfig) (env : ZulipEnv) (me_id : Option Nat)
    (event : EventRec) (msg : MessageRec) (c s : String) (l : List StreamMeta)
    (hEt : event.etype = some ("message"))
    (hM : event.message = some msg)
    (hSelf : selfOrBot me_id msg = false)
    (hAddr : notAddressed msg (pyStrip (msg.content.getD "")) = false)
    (hHelp : helpMatch (pyStrip (msg.content.getD "")).data = false)
    (hMfa : mfaSearch (lowerList (pyStrip (msg.content.getD "")).data) = some (c, s))
    (hStreams : env.get_streams = some l)
    (hU : env.get_users = none ∨
      ∃ ms, env.get_users = some ms ∧ ∀ m ∈ ms, m.email ≠ msg.sender_email) :
    handler cfg env me_id event =
      Except.ok (Effect.dm msg.sender_email (deniedDm c s) ::
        auditFx cfg env l c (deniedLine (emailLocal msg.sender_email) s c)) ∧
    (∀ e ∈ Effect.dm msg.sender_email (deniedDm c s) ::
        auditFx cfg env l c (deniedLine (emailLocal msg.sender_email) s c),
      isGatewayCall e = false) := by
  have hu := get_user_id_none env msg.sender_email hU
  have hh : handler cfg env me_id event = handleGenerate cfg env msg.sender_email c s := by
    rw [handler_eq_filtered cfg env me_id event msg hEt hM]
    simp [hSelf, hAddr, hHelp, hMfa]
  constructor
  · rw [hh, handleGenerate_denied cfg env msg.sender_email c s
      (emailLocal msg.sender_email) l none hStreams hu rfl]
  · intro e he
    rcases List.mem_cons.mp he with rfl | hin
    · rfl
    · rcases auditFx_all_audit_posts cfg env l c _ e hin with ⟨sid, c', rfl⟩
      rfl

/-- C9 witness: with the user listing failing, bob's `!mfa-acme-gmail`
request is denied — one denial reply, one denial audit line naming `bob`
(the email's local part), and no gateway call. -/
theorem c9_unknown_requester_denied_witness :
    handler cfgDemo envNoUsersDemo (some 99) (evDemo ("!mfa-acme-gmail")) =
      Except.ok (Effect.dm ("bob@example.com") (deniedDm ("acme") ("gmail")) ::
        auditFx cfgDemo envNoUsersDemo [⟨"Acme", 7⟩, ⟨"general", 1⟩] ("acme")
          (deniedLine (emailLocal ("bob@example.com")) ("gmail") ("acme"))) ∧
    (∀ e ∈ Effect.dm ("bob@example.com") (deniedDm ("acme") ("gmail")) ::
        auditFx cfgDemo envNoUsersDemo [⟨"Acme", 7⟩, ⟨"general", 1⟩] ("acme")
          (deniedLine (emailLocal ("bob@example.com")) ("gmail") ("acme")),
      isGatewayCall e = false) :=
  c9_unknown_requester_denied cfgDemo envNoUsersDemo (some 99)
    (evDemo ("!mfa-acme-gmail")) (msgDemo ("!mfa-acme-gmail")) ("acme") ("gmail")
    [⟨"Acme", 7⟩, ⟨"general", 1⟩] rfl rfl (by decide) (by decide) (by decide)
    (by decide) rfl (Or.inl rfl)

/-- C3: whenever the generate-code pattern matches, the extracted client
and service are exactly the two non-empty runs of label characters
`[a-z0-9_]` around the dash that follows the literal `!mfa-`, with a word
boundary after the service (the fixed greedy delimiter policy of
`CMD_MFA`); matching is case-insensitive and surrounding whitespace is
trimmed, and in particular `!mfa-acme-gmail` parses to the generate-code
command with client `acme` and service `gmail`. -/
theorem c3_parse_extraction :
    (∀ (cs : List Char) (c s : String), mfaSearch cs = some (c, s) →
      ∃ pre post, cs = pre ++ (mfaLit ++ (c.data ++ ('-' :: (s.data ++ post)))) ∧
        c.data ≠ [] ∧ s.data ≠ [] ∧
        (∀ ch ∈ c.data, isLabelChar ch = true) ∧
        (∀ ch ∈ s.data, isLabelChar ch = true) ∧
        (∀ ch, post.head? = some ch → isWordChar ch = false)) ∧
    parseCommand ("!mfa-acme-gmail") = Cmd.gen ("acme") ("gmail") ∧
    parseCommand ("  !MFA-Acme-Gmail  ") = Cmd.gen ("acme") ("gmail") ∧
    parseCommand ("!mfa-acme-gmail-extra") = Cmd.gen ("acme") ("gmail") :=
  ⟨mfaSearch_sound, by decide, by decide, by decide⟩

/-- C3 witness: the decomposition instantiated on `!mfa-acme-gmail`,
whose search yields client `acme` and service `gmail`. -/
theorem c3_parse_extraction_witness :
    ∃ pre post, ("!mfa-acme-gmail").data =
      pre ++ (mfaLit ++ (("acme").data ++ ('-' :: (("gmail").data ++ post)))) ∧
      ("acme").data ≠ [] ∧ ("gmail").data ≠ [] ∧
      (∀ ch ∈ ("acme").data, isLabelChar ch = true) ∧
      (∀ ch ∈ ("gmail").data, isLabelChar ch = true) ∧
      (∀ ch, post.head? = some ch → isWordChar ch = false) :=
  c3_parse_extraction.1 (("!mfa-acme-gmail").data) ("acme") ("gmail") (by decide)

/-- C8 counterexample: the gateway reads `LABELS` (and the TOTP
parameters and `API_KEY`) inside the request handler, not once at
startup — `_load_label_map()` and `_params()` are called from the route
bodies — so a request's outcome depends on the environment current at
request time: two calls of the same route that differ only in the
request-time value of `LABELS` give a code in one case and a 404 in the
other, refuting "read exactly once at process startup and never
re-read". -/
theorem c8_config_counterexample :
    totp_route gLabelsDemo totpNowDemo ("T0") ("acme") ("gmail") none =
      GwResp.ok ("acme") ("gmail") ("000000") 30 ("T0") ∧
    totp_route gEmptyDemo totpNowDemo ("T0") ("acme") ("gmail") none =
      GwResp.err 404 ("unknown label") ∧
    totp_route gLabelsDemo totpNowDemo ("T0") ("acme") ("gmail") none ≠
      totp_route gEmptyDemo totpNowDemo ("T0") ("acme") ("gmail") none := by
  refine ⟨by decide, by decide, by decide⟩

/-- C8 (amended): the bot's configuration (gateway URL, API key, audit
topic, fallback stream) is captured once at module load into the
`BotConfig` value the handler closes over; the gateway instead re-reads
`LABELS`, `TOTP_PERIOD`, `TOTP_DIGITS` and `API_KEY` from the environment
on every request, and a request's outcome depends on the environment only
through the request-time values of those four variables. -/
theorem c8_gateway_rereads_config (g g' : String → Option String)
    (hL : g ("LABELS") = g' ("LABELS"))
    (hP : g ("TOTP_PERIOD") = g' ("TOTP_PERIOD"))
    (hD : g ("TOTP_DIGITS") = g' ("TOTP_DIGITS"))
    (hK : g ("API_KEY") = g' ("API_KEY")) :
    (∀ totpNow now client service auth,
      totp_route g totpNow now client service auth =
        totp_route g' totpNow now client service auth) ∧
    (∀ totpNow label auth,
      code_route g totpNow label auth = code_route g' totpNow label auth) := by
  have hlm : load_label_map g = load_label_map g' := by
    unfold load_label_map
    rw [hL]
  have hpar : gwParams g = gwParams g' := by
    unfold gwParams
    rw [hP, hD]
  have hreq : ∀ auth, require_api_key g auth = require_api_key g' auth := by
    intro auth
    unfold require_api_key apiKeyOf
    rw [hK]
  constructor
  · intro totpNow now client service auth
    unfold totp_route
    rw [hreq, hlm, hpar]
  · intro totpNow label auth
    unfold code_route
    rw [hreq, hlm, hpar]

/-- C8 witness: two environments agreeing on the four variables the
gateway reads per request — one of them carrying junk in every other
variable — produce identical route outcomes. -/
theorem c8_gateway_rereads_config_witness :
    totp_route gLabelsDemo totpNowDemo ("T0") ("acme") ("gmail") none =
      totp_route gJunkDemo totpNowDemo ("T0") ("acme") ("gmail") none ∧
    code_route gLabelsDemo totpNowDemo ("acme-gmail") none =
      code_route gJunkDemo totpNowDemo ("acme-gmail") none :=
  ⟨(c8_gateway_rereads_config gLabelsDemo gJunkDemo (by decide) (by decide)
      (by decide) (by decide)).1 totpNowDemo ("T0") ("acme") ("gmail") none,
   (c8_gateway_rereads_config gLabelsDemo gJunkDemo (by decide) (by decide)
      (by decide) (by decide)).2 totpNowDemo ("acme-gmail") none⟩

end TG

